import Mathlib

/-!
Verification of the open_notify crate: a shallow embedding of its query
engine (src/spot.rs) and of its poll-and-deliver pipeline (src/lib.rs),
with theorems settling the specified properties.

Timestamps (`chrono::DateTime<chrono::Local>`) are modelled as integers
(seconds since the epoch); `chrono::Duration` as an integer number of
seconds.  The wall clock `chrono::Local::now()` is passed as an explicit
`now` parameter.
-/

namespace OpenNotify

/-- An absolute timestamp, modelled as epoch seconds (spot.rs `DateTime`). -/
abbrev DateTime := Int

/-- A time span in seconds (spot.rs `Duration`). -/
abbrev Duration := Int

/-- spot.rs `from_utc_timestamp`: a UTC epoch-second value converted to a
local `DateTime`.  The conversion changes only the display zone, never the
instant, so on instants it is the identity. -/
def from_utc_timestamp (t : Int) : DateTime := t

/-- spot.rs `DayTime`: a sunrise/sunset pair. -/
structure DayTime where
  sunrise : DateTime
  sunset : DateTime
deriving DecidableEq, Repr

/-- spot.rs `DayTime::from_utc`. -/
def DayTime.from_utc (sunrise_utc sunset_utc : Int) : DayTime :=
  { sunrise := from_utc_timestamp sunrise_utc
    sunset := from_utc_timestamp sunset_utc }

/-- spot.rs `DayTime::at_night`: `datetime < self.sunrise || datetime > self.sunset`. -/
def DayTime.at_night (d : DayTime) (datetime : DateTime) : Bool :=
  datetime < d.sunrise || datetime > d.sunset

/-- spot.rs `DayTime::at_night_utc`. -/
def DayTime.at_night_utc (d : DayTime) (datetime_utc : Int) : Bool :=
  d.at_night (from_utc_timestamp datetime_utc)

/-- spot.rs / lib.rs `Spot`: a pass with a rise time and a visible duration. -/
structure Spot where
  duration : Duration
  risetime : DateTime
deriving DecidableEq, Repr

/-- spot.rs `Spot::is_spottable`: `now >= risetime && now < risetime + duration`,
with the wall clock made an explicit parameter. -/
def Spot.is_spottable (s : Spot) (now : DateTime) : Bool :=
  decide (now ≥ s.risetime) && decide (now < s.risetime + s.duration)

/-- spot.rs `Spot::at_night`: the darkness test applied to the rise time. -/
def Spot.at_night (s : Spot) (daytime : DayTime) : Bool :=
  daytime.at_night s.risetime

/-- spot.rs `find_upcoming`: scans the passes in order; at the first pass whose
rise time is after `now`, if a `daytime` window is supplied and the pass is not
at night it returns `none` at once, otherwise it returns that pass. -/
def find_upcoming (spots : List Spot) (daytime : Option DayTime) (now : DateTime) :
    Option Spot :=
  match spots with
  | [] => none
  | spot :: rest =>
    if spot.risetime > now then
      match daytime with
      | some dt => if !spot.at_night dt then none else some spot
      | none => some spot
    else find_upcoming rest daytime now

/-- spot.rs `find_current`: scans the passes in order; at the first pass whose
interval contains `now`, if a `daytime` window is supplied and the pass is not
at night it returns `none` at once, otherwise it returns that pass. -/
def find_current (spots : List Spot) (daytime : Option DayTime) (now : DateTime) :
    Option Spot :=
  match spots with
  | [] => none
  | spot :: rest =>
    if spot.is_spottable now then
      match daytime with
      | some dt => if !spot.at_night dt then none else some spot
      | none => some spot
    else find_current rest daytime now

/-- Specified variant of `find_upcoming`, following the spec words only: with a
window supplied, an upcoming pass whose rise time is in daylight is skipped and
the scan continues to the next candidate.  Declared solely to exhibit where the
source diverges from it. -/
def find_upcoming_specified (spots : List Spot) (daytime : Option DayTime)
    (now : DateTime) : Option Spot :=
  match spots with
  | [] => none
  | spot :: rest =>
    if spot.risetime > now then
      match daytime with
      | some dt =>
        if spot.at_night dt then some spot
        else find_upcoming_specified rest daytime now
      | none => some spot
    else find_upcoming_specified rest daytime now

/-! The poll-and-deliver pipeline of lib.rs.  The network and the JSON decoder
are external collaborators; one poller iteration observes one `FetchOutcome`,
so a run of the loop is driven by a finite trace of such outcomes. -/

/-- lib.rs `Pass`: one wire record of the service response
(`duration: u64`, `risetime: i64`). -/
structure Pass where
  duration : Nat
  risetime : Int
deriving DecidableEq, Repr

/-- Rust `as i64` applied to a `u64` value: two's-complement reinterpretation. -/
def u64_as_i64 (n : Nat) : Int :=
  if n % 2 ^ 64 < 2 ^ 63 then ((n % 2 ^ 64 : Nat) : Int)
  else ((n % 2 ^ 64 : Nat) : Int) - 2 ^ 64

/-- lib.rs `init`, body of the decode-success arm: one wire record mapped to a
`Spot` (`Duration::seconds(r.duration as i64)`, `from_utc_timestamp(r.risetime)`). -/
def spotOfPass (r : Pass) : Spot :=
  { duration := u64_as_i64 r.duration
    risetime := from_utc_timestamp r.risetime }

/-- lib.rs `LOADING`: the loading sentinel message. -/
def LOADING : String := "loading..."

/-- A message on the channel: `Result<Vec<Spot>, String>`. -/
abbrev Msg := Except String (List Spot)

instance : DecidableEq Msg := fun a b =>
  match a, b with
  | Except.ok x, Except.ok y =>
    if h : x = y then isTrue (by rw [h]) else isFalse (by simp [h])
  | Except.error x, Except.error y =>
    if h : x = y then isTrue (by rw [h]) else isFalse (by simp [h])
  | Except.ok _, Except.error _ => isFalse (by simp)
  | Except.error _, Except.ok _ => isFalse (by simp)

/-- What one iteration of the poller loop observes from the outside world:
a transport-level failure of `reqwest::blocking::get`, a response with a
non-OK status, an OK response whose body `serde_json` fails to decode, or an
OK response decoded into an `OpenNotifyResponse` (only its `response` field
is used by the loop). -/
inductive FetchOutcome where
  | transportErr (e : String)
  | httpErr (statusText : String)
  | decodeErr (e : String)
  | okResponse (response : List Pass)
deriving DecidableEq, Repr

/-- Control transfer at the end of one loop iteration: fall through to the
next iteration at once, sleep for the poll period first, or `break`. -/
inductive LoopAction where
  | next
  | sleepNext
  | halt
deriving DecidableEq, Repr

/-- One iteration of the `loop` in lib.rs `init`, given the fetch outcome it
observes: the list of messages it sends on the channel and how it leaves the
iteration.  `period` is the sleep period in seconds (`60 * poll_mins`). -/
def loopStep (period : Nat) (f : FetchOutcome) : List Msg × LoopAction :=
  match f with
  | .transportErr _ => ([], .next)
  | .httpErr statusText => ([Except.error statusText], .next)
  | .decodeErr e => ([Except.error e], .next)
  | .okResponse rs =>
    ([Except.ok (rs.map spotOfPass)],
     if period = 0 then .halt else .sleepNext)

/-- The `loop` in lib.rs `init` run over a finite trace of fetch outcomes:
the messages sent on the channel, and whether the loop has terminated
(`break`) within the trace. -/
def pollerLoop (period : Nat) : List FetchOutcome → List Msg × Bool
  | [] => ([], false)
  | f :: fs =>
    let (ms, a) := loopStep period f
    if a = .halt then (ms, true)
    else
      let (ms2, t) := pollerLoop period fs
      (ms ++ ms2, t)

/-- lib.rs `init`, the spawned thread's whole behaviour over a trace: it first
sends `Err(LOADING)` on the channel, then enters the loop with
`period = 60 * poll_mins` seconds.  Returns the messages sent, in order, and
whether the thread has terminated. -/
def init (poll_mins : Nat) (trace : List FetchOutcome) : List Msg × Bool :=
  let period := 60 * poll_mins
  let (ms, t) := pollerLoop period trace
  (Except.error LOADING :: ms, t)

/-! The mpsc channel and the consumer side. -/

/-- `std::sync::mpsc::TryRecvError`. -/
inductive TryRecvError where
  | empty
  | disconnected
deriving DecidableEq, Repr

/-- The receiver end of the mpsc channel: the queue of not-yet-received
messages, oldest first, and whether the sender is still connected. -/
structure Channel where
  queue : List Msg
  connected : Bool
deriving DecidableEq, Repr

/-- `mpsc::Sender::send`: appends the message to the queue. -/
def Channel.send (c : Channel) (m : Msg) : Channel :=
  { c with queue := c.queue ++ [m] }

/-- `mpsc::Receiver::try_recv`: returns the oldest queued message if any,
otherwise `Err(Empty)` while the sender lives and `Err(Disconnected)` after
it has hung up. -/
def Channel.try_recv (c : Channel) : Except TryRecvError Msg × Channel :=
  match c.queue with
  | m :: ms => (Except.ok m, { c with queue := ms })
  | [] => (Except.error (if c.connected then .empty else .disconnected), c)

/-- lib.rs `update`: `try_recv`, with `Ok` mapped to `Some` and any error
mapped to `None`. -/
def update (c : Channel) : Option Msg × Channel :=
  match c.try_recv with
  | (Except.ok spots, c') => (some spots, c')
  | (Except.error _, c') => (none, c')

/-- lib.rs `spot`, the busy loop over the channel content: `None` from
`update` keeps waiting, `Ok(spots)` returns `Ok(spots)`, `Err(e)` returns
`Err(e)` unless `e == LOADING`, which keeps waiting.  Over the finite list of
messages the poller will send; `none` means the loop is still waiting when
the trace ends. -/
def spotLoop : List Msg → Option (Except String (List Spot))
  | [] => none
  | Except.ok spots :: _ => some (Except.ok spots)
  | Except.error e :: rest =>
    if e ≠ LOADING then some (Except.error e) else spotLoop rest

/-- lib.rs `spot`: starts `init` with `poll_mins = 0` and busy-loops on the
channel. -/
def spot (trace : List FetchOutcome) : Option (Except String (List Spot)) :=
  spotLoop (init 0 trace).1

/-- lib.rs `blocking::spot`: `executor::block_on(super::spot(...))`. -/
def blocking_spot (trace : List FetchOutcome) : Option (Except String (List Spot)) :=
  spot trace

/-! Theorems. -/

/-- C6: for every window and instant, the darkness test holds exactly when the
instant is strictly before sunrise or strictly after sunset; for a well-formed
window (sunrise ≤ sunset) the boundary instants equal to sunrise or sunset are
classified as daytime. -/
theorem at_night_iff_outside_window (w : DayTime) (t : DateTime)
    (h : w.sunrise ≤ w.sunset) :
    (w.at_night t = true ↔ (t < w.sunrise ∨ t > w.sunset)) ∧
    w.at_night w.sunrise = false ∧ w.at_night w.sunset = false := by
  refine ⟨?_, ?_, ?_⟩
  · simp [DayTime.at_night]
  · simp only [DayTime.at_night, Bool.or_eq_false_iff, decide_eq_false_iff_not, not_lt]
    exact ⟨le_refl _, h⟩
  · simp only [DayTime.at_night, Bool.or_eq_false_iff, decide_eq_false_iff_not, not_lt]
    exact ⟨h, le_refl _⟩

theorem at_night_iff_outside_window_witness :
    (DayTime.at_night ⟨0, 10⟩ 5 = true ↔ ((5 : Int) < 0 ∨ (5 : Int) > 10)) ∧
    DayTime.at_night ⟨0, 10⟩ 0 = false ∧ DayTime.at_night ⟨0, 10⟩ 10 = false :=
  at_night_iff_outside_window ⟨0, 10⟩ 5 (by decide)

/-- C2: find_current evaluates the darkness test only on the first pass whose
interval contains now: with a window it returns that pass when its rise time
is at night and nothing otherwise (never scanning further), and with no window
it returns the first containing pass, nothing when no interval contains now. -/
theorem find_current_first_containing (spots : List Spot) (now : DateTime) :
    (∀ dt : DayTime,
      find_current spots (some dt) now =
        (spots.find? (fun s => s.is_spottable now)).bind
          (fun s => if s.at_night dt then some s else none)) ∧
    find_current spots none now = spots.find? (fun s => s.is_spottable now) := by
  induction spots with
  | nil => simp [find_current]
  | cons s rest ih =>
    refine ⟨fun dt => ?_, ?_⟩
    · cases h : s.is_spottable now with
      | true =>
        simp [find_current, h, List.find?_cons]
        cases hn : s.at_night dt <;> simp [hn]
      | false =>
        simp [find_current, h, List.find?_cons]
        exact ih.1 dt
    · cases h : s.is_spottable now with
      | true => simp [find_current, h, List.find?_cons]
      | false =>
        simp [find_current, h, List.find?_cons]
        exact ih.2

/-- C1: the spec scenario with passes rising at 06:00, 09:00, 18:00, 22:00
(epoch seconds 21600, 32400, 64800, 79200, as seconds of the day, each 30
minutes long), sunrise 07:00 = 25200, sunset 21:00 = 75600, now 13:00 = 46800.
The source find_upcoming returns none: it short-circuits on the daytime 18:00
pass instead of scanning on; the specified scan-continuing variant returns the
22:00 pass, as do the crate's own tests. -/
theorem find_upcoming_shortcircuits_on_daylight :
    find_upcoming
        [⟨1800, 21600⟩, ⟨1800, 32400⟩, ⟨1800, 64800⟩, ⟨1800, 79200⟩]
        (some ⟨25200, 75600⟩) 46800 = none ∧
    find_upcoming_specified
        [⟨1800, 21600⟩, ⟨1800, 32400⟩, ⟨1800, 64800⟩, ⟨1800, 79200⟩]
        (some ⟨25200, 75600⟩) 46800 = some ⟨1800, 79200⟩ := by
  exact ⟨rfl, rfl⟩

/-- C3: an iteration whose network call fails at the transport level sends
nothing on the channel, does not sleep, and the loop continues to the next
iteration without terminating; every other iteration outcome sends exactly one
message. -/
theorem transport_errors_swallowed (period : Nat) :
    (∀ e, loopStep period (.transportErr e) = ([], .next)) ∧
    (∀ e fs, pollerLoop period (.transportErr e :: fs) = pollerLoop period fs) ∧
    (∀ f, (∀ e, f ≠ .transportErr e) → (loopStep period f).1.length = 1) := by
  refine ⟨fun _ => rfl, fun e fs => ?_, fun f h => ?_⟩
  · simp [pollerLoop, loopStep]
  · cases f with
    | transportErr e => exact absurd rfl (h e)
    | httpErr s => rfl
    | decodeErr e => rfl
    | okResponse rs => rfl

theorem transport_errors_swallowed_witness :
    (loopStep 0 (.httpErr "500 Internal Server Error")).1.length = 1 :=
  (transport_errors_swallowed 0).2.2 (.httpErr "500 Internal Server Error")
    (fun _ h => nomatch h)

/-- C4: one iteration halts the loop exactly when the poll interval is 0 and
the iteration published a Success; with a positive interval a Success publish
is followed by a sleep and the loop never terminates on any trace; with
interval 0 the loop stops at the first Success, ignoring the rest of the
trace. -/
theorem poll_interval_termination (poll_mins : Nat) :
    (∀ f, (loopStep (60 * poll_mins) f).2 = .halt ↔
        poll_mins = 0 ∧ ∃ rs, f = .okResponse rs) ∧
    (∀ rs, 0 < poll_mins →
        loopStep (60 * poll_mins) (.okResponse rs) =
          ([Except.ok (rs.map spotOfPass)], .sleepNext)) ∧
    (∀ trace, 0 < poll_mins → (pollerLoop (60 * poll_mins) trace).2 = false) ∧
    (∀ pre rs post, poll_mins = 0 →
        (∀ rs', FetchOutcome.okResponse rs' ∉ pre) →
        pollerLoop (60 * poll_mins) (pre ++ FetchOutcome.okResponse rs :: post) =
          pollerLoop (60 * poll_mins) (pre ++ [FetchOutcome.okResponse rs]) ∧
        (pollerLoop (60 * poll_mins) (pre ++ FetchOutcome.okResponse rs :: post)).2
          = true) := by
  refine ⟨fun f => ?_, fun rs h => ?_, fun trace h => ?_,
    fun pre rs post h0 hpre => ?_⟩
  · cases f with
    | transportErr e => simp [loopStep]
    | httpErr s => simp [loopStep]
    | decodeErr e => simp [loopStep]
    | okResponse rs =>
      by_cases h : poll_mins = 0
      · subst h; simp [loopStep]
      · rw [loopStep]
        simp [if_neg (by omega : ¬ 60 * poll_mins = 0), h]
  · rw [loopStep]
    simp [if_neg (by omega : ¬ 60 * poll_mins = 0)]
    omega
  · induction trace with
    | nil => rfl
    | cons f fs ih =>
      cases f with
      | transportErr e => simpa [pollerLoop, loopStep] using ih
      | httpErr s => simpa [pollerLoop, loopStep] using ih
      | decodeErr e => simpa [pollerLoop, loopStep] using ih
      | okResponse rs =>
        have hh : ¬ poll_mins = 0 := by omega
        simp [pollerLoop, loopStep, hh]
        exact ih
  · subst h0
    simp only [Nat.mul_zero]
    induction pre with
    | nil => exact ⟨rfl, rfl⟩
    | cons p ps ih =>
      have hps : ∀ rs', FetchOutcome.okResponse rs' ∉ ps :=
        fun rs' hm => hpre rs' (List.mem_cons_of_mem p hm)
      cases p with
      | transportErr e => simpa [pollerLoop, loopStep] using ih hps
      | httpErr s =>
        have h2 := ih hps
        have hflag : (pollerLoop 0 (ps ++ [FetchOutcome.okResponse rs])).2 = true :=
          h2.1 ▸ h2.2
        refine ⟨?_, ?_⟩ <;> simp [pollerLoop, loopStep, h2.1, h2.2, hflag]
      | decodeErr e =>
        have h2 := ih hps
        have hflag : (pollerLoop 0 (ps ++ [FetchOutcome.okResponse rs])).2 = true :=
          h2.1 ▸ h2.2
        refine ⟨?_, ?_⟩ <;> simp [pollerLoop, loopStep, h2.1, h2.2, hflag]
      | okResponse rs' => exact absurd (List.mem_cons_self _ _) (hpre rs')

theorem poll_interval_termination_witness :
    (pollerLoop (60 * 1) [FetchOutcome.okResponse []]).2 = false ∧
    pollerLoop (60 * 0)
        ([FetchOutcome.httpErr "500"] ++
          FetchOutcome.okResponse [] :: [FetchOutcome.httpErr "502"]) =
      pollerLoop (60 * 0)
        ([FetchOutcome.httpErr "500"] ++ [FetchOutcome.okResponse []]) :=
  ⟨(poll_interval_termination 1).2.2.1 [FetchOutcome.okResponse []] (by decide),
   ((poll_interval_termination 0).2.2.2 [FetchOutcome.httpErr "500"] []
      [FetchOutcome.httpErr "502"] rfl
      (fun rs' hm => by simp at hm)).1⟩

/-- C5: the first message the poller sends on the channel is the Loading
sentinel, and it precedes every message produced by a loop iteration, so it is
on the channel before any fetch outcome is processed, on every trace and for
every poll interval. -/
theorem loading_published_first (poll_mins : Nat) (trace : List FetchOutcome) :
    (init poll_mins trace).1 =
      Except.error LOADING :: (pollerLoop (60 * poll_mins) trace).1 ∧
    (init poll_mins trace).1.head? = some (Except.error LOADING) := by
  exact ⟨rfl, rfl⟩

/-- C7: update never blocks and returns at most one queued message per call,
the oldest first, leaving the rest queued; send appends, so nothing is lost or
overwritten; a channel holding Loading then Success yields Loading on the
first drain, Success on the second, and nothing on a third. -/
theorem update_fifo_one_per_call :
    (∀ (q : List Msg) (b : Bool) (m : Msg),
      update ⟨m :: q, b⟩ = (some m, ⟨q, b⟩)) ∧
    (∀ b : Bool, update ⟨[], b⟩ = (none, ⟨[], b⟩)) ∧
    (∀ (c : Channel) (m : Msg), (c.send m).queue = c.queue ++ [m]) ∧
    (∀ (s : List Spot) (b : Bool),
      (update ⟨[Except.error LOADING, Except.ok s], b⟩).1 =
        some (Except.error LOADING) ∧
      (update (update ⟨[Except.error LOADING, Except.ok s], b⟩).2).1 =
        some (Except.ok s) ∧
      (update (update (update ⟨[Except.error LOADING, Except.ok s], b⟩).2).2).1 =
        none) ∧
    (∀ b : Bool,
      ((Channel.send (Channel.send ⟨[], b⟩ (Except.error LOADING))
          (Except.ok [])).queue) = [Except.error LOADING, Except.ok []]) := by
  exact ⟨fun q b m => rfl, fun b => rfl, fun c m => rfl,
    fun s b => ⟨rfl, rfl, rfl⟩, fun b => rfl⟩

/-- C8: the facade starts the poller with poll interval 0 and busy-loops on
the channel; it returns the first message other than the Loading sentinel
(Success as Ok, Failure as Err), and a Loading message is never returned to
its caller. -/
theorem facade_first_non_loading (trace : List FetchOutcome) :
    blocking_spot trace = spotLoop (init 0 trace).1 ∧
    (∀ ms : List Msg,
      spotLoop ms = (ms.filter (fun m => m ≠ Except.error LOADING)).head?) ∧
    (∀ (ms : List Msg) (r : Except String (List Spot)),
      spotLoop ms = some r → r ≠ Except.error LOADING) := by
  refine ⟨rfl, fun ms => ?_, fun ms r h => ?_⟩
  · induction ms with
    | nil => rfl
    | cons m rest ih =>
      cases m with
      | ok s => simp [spotLoop, List.filter, LOADING]
      | error e =>
        by_cases he : e = LOADING
        · subst he
          simpa [spotLoop, List.filter] using ih
        · simp [spotLoop, List.filter, he]
  · induction ms with
    | nil => exact absurd h (by simp [spotLoop])
    | cons m rest ih =>
      cases m with
      | ok s =>
        simp [spotLoop] at h
        subst h
        simp
      | error e =>
        by_cases he : e = LOADING
        · subst he
          simp [spotLoop] at h
          exact ih h
        · simp [spotLoop, he] at h
          subst h
          simp [he]

theorem facade_first_non_loading_witness :
    (Except.error "500 Internal Server Error" : Msg) ≠ Except.error LOADING :=
  (facade_first_non_loading []).2.2 [Except.error "500 Internal Server Error"]
    (Except.error "500 Internal Server Error") (by decide)

/-- C9: the Loading sentinel is no tagged variant but the error message with
the literal text "loading...": a decode failure whose message is exactly that
text produces the very same channel message, and the facade loop skips any
error message equal to that text, so such a genuine failure is swallowed: the
one-shot facade over a trace holding only that failure keeps waiting instead
of returning it. -/
theorem loading_sentinel_is_string (period : Nat) :
    LOADING = "loading..." ∧
    (loopStep period (.decodeErr "loading...")).1 = [Except.error LOADING] ∧
    (∀ rest, spotLoop (Except.error "loading..." :: rest) = spotLoop rest) ∧
    spot [.decodeErr "loading..."] = none := by
  refine ⟨rfl, rfl, fun rest => ?_, by decide⟩
  simp [spotLoop, LOADING]

/-- C10: update returns none both on a merely empty channel and on an empty
disconnected one, leaving the channel unchanged, so it returns none on every
later call as well, although try_recv itself still distinguishes the two; a
one-shot poller (interval 0) publishes Loading then its Success and
terminates, so after its two messages are drained the consumer sees only
none, indistinguishable from a quiet live poller. -/
theorem update_conflates_empty_and_disconnected :
    (∀ b : Bool, update ⟨[], b⟩ = (none, ⟨[], b⟩)) ∧
    ((update ⟨[], true⟩).1 = (update ⟨[], false⟩).1) ∧
    (∀ b : Bool, (Channel.try_recv ⟨[], b⟩).1 =
      Except.error (if b then .empty else .disconnected)) ∧
    (Channel.try_recv ⟨[], true⟩).1 ≠ (Channel.try_recv ⟨[], false⟩).1 ∧
    (∀ rs, init 0 [FetchOutcome.okResponse rs] =
      ([Except.error LOADING, Except.ok (rs.map spotOfPass)], true)) := by
  exact ⟨fun b => rfl, rfl, fun b => rfl, by simp [Channel.try_recv], fun rs => rfl⟩

end OpenNotify
